import Mathlib

/-!
Shallow embedding of the notification-api dispatch and delivery-tracking core.

Sources embedded:
- `src/common/dto/notification.dto.ts` (enumerations and request shapes)
- `src/notifications/channel-providers/*` (EmailProvider, FcmProvider,
  NotificationProviderFactory)
- `src/notifications/notifications.service.ts` (NotificationsService)

Modelling conventions:
- Opaque identity strings (cuid) are modelled as `Nat` with a fresh-id counter
  in the database state; `Date` timestamps are an abstract `Nat` clock value
  `now` passed to the operations that read the clock.
- External effects (HTTP `fetch` to SendGrid / FCM, configuration lookups) are
  modelled as environment records carried by the providers; a call that can
  throw is an `Except String` value whose `error` case is the thrown message.
- Observability-only metadata maps (provider response timing and the like) and
  log statements are not modelled; no claim depends on them.
-/

namespace NotificationApi

/-- `NotificationType` from `notification.dto.ts`. -/
inductive NotificationType where
  | ANNOUNCEMENT | ASSIGNMENT | GRADE | REMINDER | SYSTEM
deriving DecidableEq, Repr

/-- `NotificationStatus` from `notification.dto.ts`. -/
inductive NotificationStatus where
  | PENDING | SENT | READ | FAILED
deriving DecidableEq, Repr

/-- `NotificationChannelType` from `notification.dto.ts`. -/
inductive NotificationChannelType where
  | EMAIL | FCM | WEBHOOK | SMS | SLACK | DISCORD | TELEGRAM
deriving DecidableEq, Repr

/-- `NotificationDeliveryStatus` from `notification.dto.ts`. -/
inductive NotificationDeliveryStatus where
  | PENDING | SENT | DELIVERED | FAILED | RETRY
deriving DecidableEq, Repr

/-- String rendering of a channel type, as interpolated into error messages. -/
def channelTypeToString : NotificationChannelType → String
  | .EMAIL => "EMAIL"
  | .FCM => "FCM"
  | .WEBHOOK => "WEBHOOK"
  | .SMS => "SMS"
  | .SLACK => "SLACK"
  | .DISCORD => "DISCORD"
  | .TELEGRAM => "TELEGRAM"

/-- `NotificationPayload` from `base.provider.ts`, as built by
`NotificationsService.sendToChannels` (title, message, type plus the sender
name/email carried in the metadata object). -/
structure NotificationPayload where
  title : String
  message : String
  type : NotificationType
  senderName : String
  senderEmail : String
deriving DecidableEq, Repr

/-- `DeliveryResult` from `base.provider.ts` (result metadata map omitted). -/
structure DeliveryResult where
  success : Bool
  status : NotificationDeliveryStatus
  messageId : Option String := none
  errorMessage : Option String := none
deriving DecidableEq, Repr

/-- JavaScript truthiness test `!x` on an optional configuration string:
true when the value is `undefined` or the empty string. -/
def strFalsy : Option String → Bool
  | none => true
  | some s => s == ""

/-- `EmailProvider.validateChannelValue`: the regex
`^[^\s@]+@[^\s@]+\.[^\s@]+$`.  A string matches iff it has exactly one `@`,
no whitespace, a nonempty local part, and a `.` in the domain part that is
neither its first nor its last character. -/
def emailValidateChannelValue (channelValue : String) : Bool :=
  match channelValue.toList.splitOn '@' with
  | [lp, dp] =>
    !lp.isEmpty && lp.all (fun c => !c.isWhitespace) &&
    !dp.isEmpty && dp.all (fun c => !c.isWhitespace) &&
    ((dp.drop 1).dropLast.contains '.')
  | _ => false

/-- `FcmProvider.validateChannelValue`: the regex `^[A-Za-z0-9:_-]{140,}$`. -/
def fcmValidateChannelValue (channelValue : String) : Bool :=
  channelValue.length ≥ 140 &&
  channelValue.toList.all (fun c => c.isAlphanum || c == ':' || c == '_' || c == '-')

/-- Outcome shape of `EmailProvider.sendVia*` helpers. -/
structure SubSendResult where
  success : Bool
  messageId : Option String := none
  errorMessage : Option String := none
deriving DecidableEq, Repr

/-- Configuration and external-call environment of `EmailProvider`:
the `EMAIL_PROVIDER` setting (default `console`), credentials from the
config service, the SendGrid HTTP call (error = thrown exception message,
ok = (response.ok, error text)), and the clock used for message ids. -/
structure EmailEnv where
  provider : String
  now : Nat
  sendgridApiKey : Option String
  sendgridFetch : String → NotificationPayload → Except String (Bool × String)
  awsAccessKeyId : Option String
  awsSecretAccessKey : Option String
  awsRegion : Option String
  smtpHost : Option String
  smtpPort : Option String

/-- `EmailProvider.sendViaSendGrid`. -/
def sendViaSendGrid (env : EmailEnv) (channelValue : String)
    (payload : NotificationPayload) : SubSendResult :=
  if strFalsy env.sendgridApiKey then
    { success := false, errorMessage := some "SendGrid API key not configured" }
  else
    match env.sendgridFetch channelValue payload with
    | .error e => { success := false, errorMessage := some ("SendGrid error: " ++ e) }
    | .ok (respOk, errorText) =>
      if !respOk then
        { success := false, errorMessage := some ("SendGrid API error: " ++ errorText) }
      else
        { success := true, messageId := some ("sg_" ++ toString env.now) }

/-- `EmailProvider.sendViaAwsSes` (actual SES call is a TODO in the source:
with full credentials it reports success). -/
def sendViaAwsSes (env : EmailEnv) (_channelValue : String)
    (_payload : NotificationPayload) : SubSendResult :=
  if strFalsy env.awsAccessKeyId || strFalsy env.awsSecretAccessKey ||
      strFalsy env.awsRegion then
    { success := false, errorMessage := some "AWS SES credentials not fully configured" }
  else
    { success := true, messageId := some ("ses_" ++ toString env.now) }

/-- `EmailProvider.sendViaNodemailer` (actual SMTP call is a TODO in the
source: with full configuration it reports success). -/
def sendViaNodemailer (env : EmailEnv) (_channelValue : String)
    (_payload : NotificationPayload) : SubSendResult :=
  if strFalsy env.smtpHost || strFalsy env.smtpPort then
    { success := false, errorMessage := some "SMTP configuration incomplete" }
  else
    { success := true, messageId := some ("smtp_" ++ toString env.now) }

/-- `EmailProvider.sendViaConsole`: always succeeds. -/
def sendViaConsole (env : EmailEnv) : SubSendResult :=
  { success := true, messageId := some ("console_" ++ toString env.now) }

/-- `String.prototype.toLowerCase()` as a character-wise map. -/
def strToLower (s : String) : String :=
  String.mk (s.toList.map Char.toLower)

/-- The `switch (this.provider.toLowerCase())` statement inside
`EmailProvider.send`: unknown providers fall back to console. -/
def emailProviderSwitch (env : EmailEnv) (channelValue : String)
    (payload : NotificationPayload) : SubSendResult :=
  if strToLower env.provider == "console" then sendViaConsole env
  else if strToLower env.provider == "sendgrid" then
    sendViaSendGrid env channelValue payload
  else if strToLower env.provider == "aws-ses" then
    sendViaAwsSes env channelValue payload
  else if strToLower env.provider == "nodemailer" then
    sendViaNodemailer env channelValue payload
  else sendViaConsole env

/-- `EmailProvider.send`: validates the address, dispatches on the configured
provider, and converts the sub-provider outcome into a `DeliveryResult`
(`DELIVERED` on success, `FAILED` with the error message on failure). -/
def emailSend (env : EmailEnv) (channelValue : String)
    (payload : NotificationPayload) : DeliveryResult :=
  if !emailValidateChannelValue channelValue then
    { success := false, status := .FAILED,
      errorMessage := some "Invalid email address format" }
  else
    if (emailProviderSwitch env channelValue payload).success then
      { success := true, status := .DELIVERED,
        messageId := (emailProviderSwitch env channelValue payload).messageId }
    else
      { success := false, status := .FAILED,
        errorMessage := (emailProviderSwitch env channelValue payload).errorMessage }

/-- Shape of the parsed FCM send response used by `FcmProvider.send`:
`response.ok`, `responseData.success`, `responseData.results?.[0]?.error`
and `responseData.results?.[0]?.message_id`. -/
structure FcmResponse where
  respOk : Bool
  successCount : Nat
  firstError : Option String
  firstMessageId : Option String

/-- Configuration and external-call environment of `FcmProvider`:
`FCM_SERVER_KEY` (default empty string) and the FCM HTTP call
(error = thrown exception message). -/
structure FcmEnv where
  serverKey : String
  now : Nat
  fetchSend : String → NotificationPayload → Except String FcmResponse

/-- `FcmProvider.send`. -/
def fcmSend (env : FcmEnv) (channelValue : String)
    (payload : NotificationPayload) : DeliveryResult :=
  if !fcmValidateChannelValue channelValue then
    { success := false, status := .FAILED,
      errorMessage := some "Invalid FCM token format" }
  else if env.serverKey == "" then
    { success := false, status := .FAILED,
      errorMessage := some "FCM server key not configured" }
  else
    match env.fetchSend channelValue payload with
    | .error e =>
      { success := false, status := .FAILED, errorMessage := some e }
    | .ok resp =>
      if resp.respOk && resp.successCount == 1 then
        { success := true, status := .DELIVERED,
          messageId := some (resp.firstMessageId.getD ("fcm_" ++ toString env.now)) }
      else
        { success := false, status := .FAILED,
          errorMessage := some (resp.firstError.getD "FCM API error") }

/-- The `ChannelProvider` interface from `base.provider.ts`, restricted to the
members the claims exercise.  `send` returning `Except.error msg` models the
handler throwing `msg` past its boundary. -/
structure ChannelProvider where
  send : String → NotificationPayload → Except String DeliveryResult
  validateChannelValue : String → Bool

/-- `EmailProvider` as a `ChannelProvider` (its `send` never throws). -/
def emailChannelProvider (env : EmailEnv) : ChannelProvider :=
  { send := fun v p => .ok (emailSend env v p)
    validateChannelValue := emailValidateChannelValue }

/-- `FcmProvider` as a `ChannelProvider` (its `send` never throws). -/
def fcmChannelProvider (env : FcmEnv) : ChannelProvider :=
  { send := fun v p => .ok (fcmSend env v p)
    validateChannelValue := fcmValidateChannelValue }

/-- `NotificationProviderFactory.registerProviders`: the provider map holds
exactly the EMAIL and FCM providers; `getProvider` on any other kind yields
nothing. -/
def registerProviders (emailProvider fcmProvider : ChannelProvider) :
    NotificationChannelType → Option ChannelProvider
  | .EMAIL => some emailProvider
  | .FCM => some fcmProvider
  | _ => none

/-- `NotificationProviderFactory.sendNotification`: looks up the provider,
synthesizes a failure result naming the kind when absent, and catches a
throwing `send`, degrading it to a failure result. -/
def sendNotification (getProvider : NotificationChannelType → Option ChannelProvider)
    (type : NotificationChannelType) (channelValue : String)
    (payload : NotificationPayload) : DeliveryResult :=
  match getProvider type with
  | none =>
    { success := false, status := .FAILED,
      errorMessage := some ("No provider available for channel type: " ++
        channelTypeToString type) }
  | some provider =>
    match provider.send channelValue payload with
    | .ok result => result
    | .error errorMsg =>
      { success := false, status := .FAILED, errorMessage := some errorMsg }

/-- `NotificationProviderFactory.validateChannelValue`: false whenever no
provider is registered for the kind. -/
def factoryValidateChannelValue
    (getProvider : NotificationChannelType → Option ChannelProvider)
    (type : NotificationChannelType) (value : String) : Bool :=
  match getProvider type with
  | none => false
  | some provider => provider.validateChannelValue value

/-- `User` rows (fields the service reads). -/
structure User where
  id : Nat
  name : String
  email : String
deriving DecidableEq, Repr

/-- `NotificationChannel` rows. -/
structure NotificationChannel where
  id : Nat
  userId : Nat
  type : NotificationChannelType
  value : String
  isActive : Bool
  isVerified : Bool
  metadata : List (String × String)
deriving DecidableEq, Repr

/-- `Notification` rows. -/
structure Notification where
  id : Nat
  title : String
  message : String
  type : NotificationType
  senderId : Nat
  recipientId : Nat
  status : NotificationStatus
deriving DecidableEq, Repr

/-- `NotificationDelivery` rows. -/
structure NotificationDelivery where
  id : Nat
  notificationId : Nat
  channelId : Nat
  status : NotificationDeliveryStatus
  sentAt : Option Nat
  deliveredAt : Option Nat
  failedAt : Option Nat
  errorMessage : Option String
  retryCount : Nat
deriving DecidableEq, Repr

/-- The persistence collaborator's state: the four tables plus a fresh-id
counter standing in for generated row identities. -/
structure Db where
  users : List User
  channels : List NotificationChannel
  notifications : List Notification
  deliveries : List NotificationDelivery
  nextId : Nat
deriving DecidableEq, Repr

/-- Request-level errors the service throws: `NotFoundException`,
the generic `Error('Invalid <type> value format')`, and the Prisma
unique-constraint rejection. -/
inductive ServiceError where
  | notFound (msg : String)
  | invalidValue (msg : String)
  | uniqueConstraintViolation
deriving DecidableEq, Repr

/-- `CreateNotificationDto`. -/
structure CreateNotificationDto where
  title : String
  message : String
  type : NotificationType
  recipientId : Nat
  channels : Option (List NotificationChannelType)
deriving DecidableEq, Repr

/-- `CreateNotificationChannelDto`. -/
structure CreateNotificationChannelDto where
  type : NotificationChannelType
  value : String
  isActive : Option Bool
  metadata : Option (List (String × String))
deriving DecidableEq, Repr

/-- The per-channel result row pushed onto `deliveryResults` in
`NotificationsService.sendToChannels` (spread of the provider result plus
delivery-record id, channel identity and retry counter). -/
structure DeliveryRow where
  success : Bool
  status : NotificationDeliveryStatus
  messageId : Option String
  errorMessage : Option String
  deliveryId : Nat
  channelType : NotificationChannelType
  channelValue : String
  retryCount : Nat
deriving DecidableEq, Repr

/-- `NotificationResponseDto` (the delivery rows keep the `success` flag the
service computed; the wire DTO projects the other fields from these rows). -/
structure NotificationResponse where
  id : Nat
  title : String
  message : String
  type : NotificationType
  status : NotificationStatus
  senderId : Nat
  recipientId : Nat
  deliveries : List DeliveryRow
deriving DecidableEq, Repr

/-- `prisma.user.findUnique({ where: { id } })`. -/
def userFindUnique (db : Db) (userId : Nat) : Option User :=
  db.users.find? (fun u => u.id == userId)

/-- The `notificationChannels: { where: { isActive: true } }` include on the
recipient lookup in `createNotification`. -/
def activeChannelsOf (db : Db) (userId : Nat) : List NotificationChannel :=
  db.channels.filter (fun c => c.userId == userId && c.isActive)

/-- `NotificationsService.getDefaultChannels`: all the (active) channel types
the user has configured, one entry per channel, not deduplicated. -/
def getDefaultChannels (userChannels : List NotificationChannel) :
    List NotificationChannelType :=
  userChannels.map (fun c => c.type)

/-- The channel-resolution step of `createNotification`:
`channels || getDefaultChannels(...)` followed by
`recipient.notificationChannels.filter(c => channelsToUse.includes(c.type))`. -/
def resolveTargets (recipientChannels : List NotificationChannel)
    (channels : Option (List NotificationChannelType)) :
    List NotificationChannel :=
  let channelsToUse := match channels with
    | some cs => cs
    | none => getDefaultChannels recipientChannels
  recipientChannels.filter (fun c => channelsToUse.contains c.type)

/-- The `prisma.notificationDelivery.create({ data: {...} })` call inside
`sendToChannels`: one record per outcome, with `sentAt` set on success,
`deliveredAt` set when the provider reported DELIVERED, `failedAt` and the
error message on failure; `retryCount` takes the schema default 0. -/
def mkDeliveryRecord (result : DeliveryResult) (notification : Notification)
    (channel : NotificationChannel) (now : Nat) (recId : Nat) :
    NotificationDelivery :=
  { id := recId
    notificationId := notification.id
    channelId := channel.id
    status := result.status
    sentAt := if result.success then some now else none
    deliveredAt := if result.status == .DELIVERED then some now else none
    failedAt := if !result.success then some now else none
    errorMessage := result.errorMessage
    retryCount := 0 }

/-- `NotificationsService.sendToChannels`: for each channel, obtain the
delivery result through the provider factory (which never throws: it catches
handler faults itself), create one delivery record, and push one result row.
`now` is the clock value read by `new Date()`. -/
def sendToChannels (getProvider : NotificationChannelType → Option ChannelProvider)
    (notification : Notification) (payload : NotificationPayload)
    (channels : List NotificationChannel) (now : Nat) (db : Db) :
    Db × List DeliveryRow :=
  match channels with
  | [] => (db, [])
  | channel :: rest =>
    let result := sendNotification getProvider channel.type channel.value payload
    let delivery : NotificationDelivery :=
      mkDeliveryRecord result notification channel now db.nextId
    let db1 : Db :=
      { db with deliveries := db.deliveries ++ [delivery], nextId := db.nextId + 1 }
    let row : DeliveryRow :=
      { success := result.success
        status := result.status
        messageId := result.messageId
        errorMessage := result.errorMessage
        deliveryId := delivery.id
        channelType := channel.type
        channelValue := channel.value
        retryCount := delivery.retryCount }
    let rec_ := sendToChannels getProvider notification payload rest now db1
    (rec_.1, row :: rec_.2)

/-- The status reduction at the end of `createNotification` (lines 77-88 of
`notifications.service.ts`), verbatim branch structure. -/
def reduceStatus (deliveryResults : List DeliveryRow) : NotificationStatus :=
  let hasSuccessfulDeliveries := deliveryResults.any (fun r => r.success)
  let hasFailedDeliveries := deliveryResults.any (fun r => !r.success)
  if hasSuccessfulDeliveries && !hasFailedDeliveries then .SENT
  else if hasSuccessfulDeliveries && hasFailedDeliveries then .SENT
  else .FAILED

/-- `NotificationsService.createNotification`. -/
def createNotification
    (getProvider : NotificationChannelType → Option ChannelProvider)
    (senderId : Nat) (dto : CreateNotificationDto) (now : Nat) (db : Db) :
    Db × Except ServiceError NotificationResponse :=
  match userFindUnique db dto.recipientId with
  | none => (db, .error (.notFound "Recipient not found"))
  | some _recipient =>
    let recipientChannels := activeChannelsOf db dto.recipientId
    let notification : Notification :=
      { id := db.nextId
        title := dto.title
        message := dto.message
        type := dto.type
        senderId := senderId
        recipientId := dto.recipientId
        status := .PENDING }
    let db1 : Db :=
      { db with notifications := db.notifications ++ [notification]
                nextId := db.nextId + 1 }
    let sender := userFindUnique db senderId
    let payload : NotificationPayload :=
      { title := notification.title
        message := notification.message
        type := notification.type
        senderName := (sender.map (fun u => u.name)).getD ""
        senderEmail := (sender.map (fun u => u.email)).getD "" }
    let targets := resolveTargets recipientChannels dto.channels
    let sres := sendToChannels getProvider notification payload targets now db1
    let notificationStatus := reduceStatus sres.2
    let updatedRows := sres.1.notifications.map
      (fun m => if m.id == notification.id then
        { m with status := notificationStatus } else m)
    let db3 : Db := { sres.1 with notifications := updatedRows }
    (db3, .ok
      { id := notification.id
        title := notification.title
        message := notification.message
        type := notification.type
        status := notificationStatus
        senderId := notification.senderId
        recipientId := notification.recipientId
        deliveries := sres.2 })

/-- `NotificationsService.markAsRead`: ownership-guarded lookup, then an
unconditional update of the status to `READ`. -/
def markAsRead (userId : Nat) (notificationId : Nat) (db : Db) :
    Db × Except ServiceError NotificationResponse :=
  match db.notifications.find?
      (fun n => n.id == notificationId && n.recipientId == userId) with
  | none => (db, .error (.notFound "Notification not found"))
  | some found =>
    let updatedRows := db.notifications.map
      (fun m => if m.id == notificationId then
        { m with status := NotificationStatus.READ } else m)
    let db1 : Db := { db with notifications := updatedRows }
    let updated := { found with status := NotificationStatus.READ }
    (db1, .ok
      { id := updated.id
        title := updated.title
        message := updated.message
        type := updated.type
        status := updated.status
        senderId := updated.senderId
        recipientId := updated.recipientId
        deliveries := [] })

/-- Modelled from the spec: the Prisma schema file (`prisma/schema.prisma`) is
not among the sources here; per the spec invariant "(owner, kind, address) is
unique" — and per the seed script's upsert through the composite key
`userId_type_value` — the `NotificationChannel` model carries a composite
unique constraint on `(userId, type, value)`, so `prisma.notificationChannel.create`
rejects a row whose triple already exists.  `isVerified` takes the schema
default `false` (the service's create never sets it). -/
def notificationChannelCreate (db : Db) (userId : Nat)
    (ctype : NotificationChannelType) (value : String) (isActive : Bool)
    (metadata : List (String × String)) :
    Db × Except ServiceError NotificationChannel :=
  if db.channels.any (fun c =>
      c.userId == userId && c.type == ctype && c.value == value) then
    (db, .error .uniqueConstraintViolation)
  else
    let channel : NotificationChannel :=
      { id := db.nextId
        userId := userId
        type := ctype
        value := value
        isActive := isActive
        isVerified := false
        metadata := metadata }
    ({ db with channels := db.channels ++ [channel], nextId := db.nextId + 1 },
      .ok channel)

/-- `NotificationsService.createNotificationChannel`: validate the value
through the provider factory, then create the row
(`isActive ?? true`, `metadata || {}`). -/
def createNotificationChannel
    (getProvider : NotificationChannelType → Option ChannelProvider)
    (userId : Nat) (dto : CreateNotificationChannelDto) (db : Db) :
    Db × Except ServiceError NotificationChannel :=
  if !factoryValidateChannelValue getProvider dto.type dto.value then
    (db, .error (.invalidValue
      ("Invalid " ++ channelTypeToString dto.type ++ " value format")))
  else
    notificationChannelCreate db userId dto.type dto.value
      (dto.isActive.getD true) (dto.metadata.getD [])

/-- The `(owner, kind, address)` triple of a channel row. -/
def tripleOf (c : NotificationChannel) :
    Nat × NotificationChannelType × String :=
  (c.userId, c.type, c.value)

/-- The uniqueness invariant on channel rows: no two rows share a triple. -/
@[reducible] def uniqueTriples (db : Db) : Prop :=
  (db.channels.map tripleOf).Nodup

/-- Projection helper for statements: the ok-response of a service call,
with an inert placeholder for the error case. -/
def respOf (out : Db × Except ServiceError NotificationResponse) :
    NotificationResponse :=
  out.2.toOption.getD
    { id := 0, title := "", message := "", type := .SYSTEM,
      status := .FAILED, senderId := 0, recipientId := 0, deliveries := [] }

/-! ## Helper lemmas -/

/-- The three-branch status reduction collapses to: any success yields SENT,
otherwise FAILED. -/
theorem reduceStatus_eq (rows : List DeliveryRow) :
    reduceStatus rows =
      if rows.any (fun r => r.success) then NotificationStatus.SENT
      else NotificationStatus.FAILED := by
  simp only [reduceStatus]
  cases h1 : rows.any (fun r => r.success) <;>
    cases h2 : rows.any (fun r => !r.success) <;> simp [h1, h2]

/-- After the status-update map, every row carrying the updated id has the
written status. -/
theorem all_update_status (l : List Notification) (nid : Nat)
    (st : NotificationStatus) :
    ((l.map (fun m => if m.id == nid then { m with status := st } else m)).all
      (fun m => m.id != nid || m.status == st)) = true := by
  induction l with
  | nil => rfl
  | cons a t ih =>
    simp only [List.map_cons, List.all_cons, Bool.and_eq_true]
    refine ⟨?_, ih⟩
    by_cases h : a.id = nid
    · simp [h]
    · simp [h]

/-- Dispatch touches only the deliveries table (and the id counter). -/
theorem sendToChannels_notifications
    (gp : NotificationChannelType → Option ChannelProvider)
    (notif : Notification) (pay : NotificationPayload)
    (chs : List NotificationChannel) (now : Nat) (db : Db) :
    (sendToChannels gp notif pay chs now db).1.notifications
      = db.notifications := by
  induction chs generalizing db with
  | nil => rfl
  | cons c rest ih => simp [sendToChannels, ih]

/-! ## Claims -/

/-- C1: for every dispatch round of `createNotification` (recipient present),
the aggregate status returned and written onto the stored notification is
SENT whenever at least one per-channel delivery result succeeded, and FAILED
whenever none did — including when the resolved target list is empty and no
delivery results exist. -/
theorem c1_createNotification_aggregate_status
    (gp : NotificationChannelType → Option ChannelProvider)
    (senderId : Nat) (dto : CreateNotificationDto) (now : Nat) (db : Db)
    (h : (userFindUnique db dto.recipientId).isSome = true) :
    (createNotification gp senderId dto now db).2.isOk = true ∧
    (respOf (createNotification gp senderId dto now db)).status
      = (if (respOf (createNotification gp senderId dto now db)).deliveries.any
             (fun d => d.success)
         then NotificationStatus.SENT else NotificationStatus.FAILED) ∧
    ((createNotification gp senderId dto now db).1.notifications.any
        (fun m => m.id == db.nextId) = true) ∧
    ((createNotification gp senderId dto now db).1.notifications.all
        (fun m => m.id != db.nextId ||
          m.status == (respOf (createNotification gp senderId dto now db)).status)
      = true) := by
  obtain ⟨u, hu⟩ := Option.isSome_iff_exists.mp h
  unfold createNotification
  rw [hu]
  refine ⟨rfl, ?_, ?_, ?_⟩
  · simp only [respOf, Except.toOption, Option.getD_some]
    exact reduceStatus_eq _
  · simp only [sendToChannels_notifications]
    simp
  · simp only [respOf, Except.toOption, Option.getD_some]
    exact all_update_status _ _ _

/-- C5: if the recipient referenced by a `createNotification` request does not
exist, the request fails with the not-found error and the state is unchanged
(no notification, no delivery record persisted). -/
theorem c5_missing_recipient_rejected
    (gp : NotificationChannelType → Option ChannelProvider)
    (senderId : Nat) (dto : CreateNotificationDto) (now : Nat) (db : Db)
    (h : userFindUnique db dto.recipientId = none) :
    createNotification gp senderId dto now db
      = (db, .error (.notFound "Recipient not found")) := by
  unfold createNotification
  rw [h]

/-! ## Concrete inputs for witnesses and counterexamples -/

/-- A registry with no providers at all (any handler absent). -/
def noProviders : NotificationChannelType → Option ChannelProvider :=
  fun _ => none

def wUser : User := { id := 1, name := "r", email := "r@x.io" }

def wDbC1 : Db :=
  { users := [wUser], channels := [], notifications := [], deliveries := [],
    nextId := 0 }

def wDtoC1 : CreateNotificationDto :=
  { title := "t", message := "m", type := .SYSTEM, recipientId := 1,
    channels := none }

theorem c1_witness :
    ((userFindUnique wDbC1 wDtoC1.recipientId).isSome = true) ∧
    ((createNotification noProviders 2 wDtoC1 0 wDbC1).2.isOk = true ∧
     (respOf (createNotification noProviders 2 wDtoC1 0 wDbC1)).status
       = (if (respOf (createNotification noProviders 2 wDtoC1 0 wDbC1)).deliveries.any
              (fun d => d.success)
          then NotificationStatus.SENT else NotificationStatus.FAILED) ∧
     ((createNotification noProviders 2 wDtoC1 0 wDbC1).1.notifications.any
        (fun m => m.id == wDbC1.nextId) = true) ∧
     ((createNotification noProviders 2 wDtoC1 0 wDbC1).1.notifications.all
        (fun m => m.id != wDbC1.nextId ||
          m.status == (respOf (createNotification noProviders 2 wDtoC1 0 wDbC1)).status)
       = true)) :=
  ⟨by decide, c1_createNotification_aggregate_status noProviders 2 wDtoC1 0 wDbC1 (by decide)⟩

def wDbC5 : Db :=
  { users := [], channels := [], notifications := [], deliveries := [],
    nextId := 0 }

def wDtoC5 : CreateNotificationDto :=
  { title := "a", message := "b", type := .GRADE, recipientId := 3,
    channels := none }

theorem c5_witness :
    (userFindUnique wDbC5 wDtoC5.recipientId = none) ∧
    createNotification noProviders 0 wDtoC5 0 wDbC5
      = (wDbC5, .error (.notFound "Recipient not found")) :=
  ⟨by decide, c5_missing_recipient_rejected noProviders 0 wDtoC5 0 wDbC5 (by decide)⟩

/-- Updating the status of a notification already in that status is the
identity on the row. -/
theorem setRead_self (m : Notification)
    (h : m.status = NotificationStatus.READ) :
    ({ m with status := NotificationStatus.READ } : Notification) = m := by
  cases m
  simp_all

/-- The READ-update map is the identity on a list whose rows with the given
id are already READ. -/
theorem map_setRead_id (l : List Notification) (nid : Nat)
    (h : l.all (fun n => n.id != nid || n.status == NotificationStatus.READ)
      = true) :
    l.map (fun m => if m.id == nid then
      { m with status := NotificationStatus.READ } else m) = l := by
  induction l with
  | nil => rfl
  | cons a t ih =>
    simp only [List.all_cons, Bool.and_eq_true] at h
    simp only [List.map_cons]
    rw [ih h.2]
    by_cases ha : a.id = nid
    · have h1 := h.1
      simp only [ha, bne_self_eq_false, Bool.false_or, beq_iff_eq] at h1
      have hif : (a.id == nid) = true := beq_iff_eq.mpr ha
      simp [hif, setRead_self a h1]
    · simp [ha]

def nFailed : Notification :=
  { id := 0, title := "t", message := "m", type := .SYSTEM, senderId := 2,
    recipientId := 1, status := .FAILED }

def dbC3 : Db :=
  { users := [], channels := [], notifications := [nFailed], deliveries := [],
    nextId := 1 }

/-- C3 counterexample: the claim says no operation ever moves a notification
out of the FAILED state, but `markAsRead` on a FAILED notification owned by
the caller succeeds and rewrites its status to READ. -/
theorem c3_state_machine_counterexample :
    dbC3.notifications.map (fun n => n.status) = [NotificationStatus.FAILED] ∧
    (markAsRead 1 0 dbC3).1.notifications.map (fun n => n.status)
      = [NotificationStatus.READ] ∧
    (markAsRead 1 0 dbC3).2.isOk = true := by decide

/-- C3 amended: `markAsRead` performs no guard on the current status — it
moves any notification owned by the caller to READ from any prior state
(including FAILED); a notification already READ stays READ. -/
theorem c3_markAsRead_unguarded_amended (userId notificationId : Nat) (db : Db)
    (h : (db.notifications.find?
        (fun n => n.id == notificationId && n.recipientId == userId)).isSome
      = true) :
    ((markAsRead userId notificationId db).2.toOption.map (fun r => r.status)
        = some NotificationStatus.READ) ∧
    ((markAsRead userId notificationId db).1.notifications.all
        (fun m => m.id != notificationId ||
          m.status == NotificationStatus.READ) = true) := by
  obtain ⟨found, hf⟩ := Option.isSome_iff_exists.mp h
  unfold markAsRead
  rw [hf]
  exact ⟨rfl, all_update_status _ _ _⟩

theorem c3_amended_witness :
    ((dbC3.notifications.find?
        (fun n => n.id == 0 && n.recipientId == 1)).isSome = true) ∧
    (((markAsRead 1 0 dbC3).2.toOption.map (fun r => r.status)
        = some NotificationStatus.READ) ∧
     ((markAsRead 1 0 dbC3).1.notifications.all
        (fun m => m.id != 0 || m.status == NotificationStatus.READ) = true)) :=
  ⟨by decide, c3_markAsRead_unguarded_amended 1 0 dbC3 (by decide)⟩

/-- C9: calling `markAsRead` on a notification that is already READ is a
state no-op: the database is unchanged and the call returns the same READ
notification without error (in particular it never regresses to SENT). -/
theorem c9_markAsRead_noop_on_read (userId notificationId : Nat) (db : Db)
    (hfound : (db.notifications.find?
        (fun n => n.id == notificationId && n.recipientId == userId)).isSome
      = true)
    (hread : db.notifications.all
        (fun n => n.id != notificationId ||
          n.status == NotificationStatus.READ) = true) :
    (markAsRead userId notificationId db).1 = db ∧
    ((markAsRead userId notificationId db).2.toOption.map (fun r => r.status)
        = some NotificationStatus.READ) := by
  obtain ⟨found, hf⟩ := Option.isSome_iff_exists.mp hfound
  unfold markAsRead
  rw [hf]
  refine ⟨?_, rfl⟩
  rw [map_setRead_id db.notifications notificationId hread]

def nRead : Notification :=
  { id := 4, title := "t", message := "m", type := .GRADE, senderId := 2,
    recipientId := 1, status := .READ }

def dbC9 : Db :=
  { users := [], channels := [], notifications := [nRead], deliveries := [],
    nextId := 5 }

theorem c9_witness :
    ((dbC9.notifications.find?
        (fun n => n.id == 4 && n.recipientId == 1)).isSome = true) ∧
    (dbC9.notifications.all
        (fun n => n.id != 4 || n.status == NotificationStatus.READ) = true) ∧
    ((markAsRead 1 4 dbC9).1 = dbC9 ∧
     ((markAsRead 1 4 dbC9).2.toOption.map (fun r => r.status)
        = some NotificationStatus.READ)) :=
  ⟨by decide, by decide,
    c9_markAsRead_noop_on_read 1 4 dbC9 (by decide) (by decide)⟩

/-- One result row per targeted channel. -/
theorem sendToChannels_length
    (gp : NotificationChannelType → Option ChannelProvider)
    (notif : Notification) (pay : NotificationPayload)
    (chs : List NotificationChannel) (now : Nat) (db : Db) :
    ((sendToChannels gp notif pay chs now db).2).length = chs.length := by
  induction chs generalizing db with
  | nil => rfl
  | cons c rest ih => simp [sendToChannels, ih]

/-- One delivery record appended per targeted channel. -/
theorem sendToChannels_deliveries_length
    (gp : NotificationChannelType → Option ChannelProvider)
    (notif : Notification) (pay : NotificationPayload)
    (chs : List NotificationChannel) (now : Nat) (db : Db) :
    (sendToChannels gp notif pay chs now db).1.deliveries.length
      = db.deliveries.length + chs.length := by
  induction chs generalizing db with
  | nil => simp [sendToChannels]
  | cons c rest ih =>
    simp only [sendToChannels]
    rw [ih]
    simp
    omega

/-- Membership in the resolved target list implies membership in the
recipient's channel list fed to it. -/
theorem mem_resolveTargets (c : NotificationChannel)
    (l : List NotificationChannel)
    (oc : Option (List NotificationChannelType))
    (h : c ∈ resolveTargets l oc) : c ∈ l := by
  unfold resolveTargets at h
  exact List.mem_of_mem_filter h

/-- Membership in the active-channel query result carries the query's
`where` clause. -/
theorem mem_activeChannelsOf (c : NotificationChannel) (db : Db) (uid : Nat)
    (h : c ∈ activeChannelsOf db uid) :
    (c.userId == uid && c.isActive) = true := by
  unfold activeChannelsOf at h
  exact (List.mem_filter.mp h).2

/-- The recipient is found: `createNotification` returns an ok response. -/
theorem createNotification_isOk
    (gp : NotificationChannelType → Option ChannelProvider)
    (senderId : Nat) (dto : CreateNotificationDto) (now : Nat) (db : Db)
    (h : (userFindUnique db dto.recipientId).isSome = true) :
    (createNotification gp senderId dto now db).2.isOk = true := by
  obtain ⟨u, hu⟩ := Option.isSome_iff_exists.mp h
  unfold createNotification
  rw [hu]
  exact rfl

/-- C6: channel resolution targets exactly the recipient's active channels,
filtered to the caller's explicit kind list when one is supplied; with no
kind list every active channel is targeted, one send (and one result row)
per channel without deduplication by kind. -/
theorem c6_channel_resolution
    (gp : NotificationChannelType → Option ChannelProvider)
    (senderId : Nat) (dto : CreateNotificationDto) (now : Nat) (db : Db)
    (kinds : List NotificationChannelType)
    (notif : Notification) (pay : NotificationPayload) (now0 : Nat) (db0 : Db)
    (h : (userFindUnique db dto.recipientId).isSome = true) :
    (resolveTargets (activeChannelsOf db dto.recipientId) (some kinds)
      = (activeChannelsOf db dto.recipientId).filter
          (fun c => kinds.contains c.type)) ∧
    (resolveTargets (activeChannelsOf db dto.recipientId) none
      = activeChannelsOf db dto.recipientId) ∧
    ((resolveTargets (activeChannelsOf db dto.recipientId) dto.channels).all
      (fun c => c.userId == dto.recipientId && c.isActive) = true) ∧
    (((sendToChannels gp notif pay
        (resolveTargets (activeChannelsOf db dto.recipientId) dto.channels)
        now0 db0).2).length
      = (resolveTargets (activeChannelsOf db dto.recipientId) dto.channels).length) ∧
    ((respOf (createNotification gp senderId dto now db)).deliveries.length
      = (resolveTargets (activeChannelsOf db dto.recipientId) dto.channels).length) := by
  refine ⟨rfl, ?_, ?_, sendToChannels_length _ _ _ _ _ _, ?_⟩
  · unfold resolveTargets
    apply List.filter_eq_self.mpr
    intro a ha
    have : a.type ∈ (activeChannelsOf db dto.recipientId).map
        (fun x => x.type) := List.mem_map_of_mem _ ha
    simpa [getDefaultChannels] using this
  · apply List.all_eq_true.mpr
    intro c hc
    exact mem_activeChannelsOf c db dto.recipientId
      (mem_resolveTargets c _ _ hc)
  · obtain ⟨u, hu⟩ := Option.isSome_iff_exists.mp h
    unfold createNotification
    rw [hu]
    simp only [respOf, Except.toOption, Option.getD_some]
    exact sendToChannels_length _ _ _ _ _ _

def wDbC6 : Db :=
  { users := [{ id := 1, name := "r", email := "r@x.io" }],
    channels :=
      [{ id := 10, userId := 1, type := .EMAIL, value := "a@b.co",
         isActive := true, isVerified := true, metadata := [] },
       { id := 11, userId := 1, type := .EMAIL, value := "c@d.co",
         isActive := true, isVerified := false, metadata := [] },
       { id := 12, userId := 1, type := .FCM, value := "tok",
         isActive := false, isVerified := false, metadata := [] }],
    notifications := [], deliveries := [], nextId := 20 }

def wDtoC6 : CreateNotificationDto :=
  { title := "t", message := "m", type := .SYSTEM, recipientId := 1,
    channels := none }

def wNotif : Notification :=
  { id := 5, title := "t", message := "m", type := .SYSTEM, senderId := 2,
    recipientId := 1, status := .PENDING }

def wPayload : NotificationPayload :=
  { title := "t", message := "m", type := .SYSTEM, senderName := "",
    senderEmail := "" }

theorem c6_witness :
    ((userFindUnique wDbC6 wDtoC6.recipientId).isSome = true) ∧
    ((resolveTargets (activeChannelsOf wDbC6 wDtoC6.recipientId) (some [.FCM])
      = (activeChannelsOf wDbC6 wDtoC6.recipientId).filter
          (fun c => [NotificationChannelType.FCM].contains c.type)) ∧
    (resolveTargets (activeChannelsOf wDbC6 wDtoC6.recipientId) none
      = activeChannelsOf wDbC6 wDtoC6.recipientId) ∧
    ((resolveTargets (activeChannelsOf wDbC6 wDtoC6.recipientId) wDtoC6.channels).all
      (fun c => c.userId == wDtoC6.recipientId && c.isActive) = true) ∧
    (((sendToChannels noProviders wNotif wPayload
        (resolveTargets (activeChannelsOf wDbC6 wDtoC6.recipientId) wDtoC6.channels)
        0 wDbC6).2).length
      = (resolveTargets (activeChannelsOf wDbC6 wDtoC6.recipientId) wDtoC6.channels).length) ∧
    ((respOf (createNotification noProviders 2 wDtoC6 0 wDbC6)).deliveries.length
      = (resolveTargets (activeChannelsOf wDbC6 wDtoC6.recipientId) wDtoC6.channels).length)) :=
  ⟨by decide,
    c6_channel_resolution noProviders 2 wDtoC6 0 wDbC6 [.FCM] wNotif wPayload 0 wDbC6
      (by decide)⟩

/-- C7: a targeted kind with no registered handler yields a failure outcome
(not a thrown error) naming the missing kind, a failed delivery record is
still created for that channel, and the creation request itself still
succeeds whenever the recipient exists. -/
theorem c7_missing_handler_failed_record
    (emailP fcmP : ChannelProvider) (k : NotificationChannelType)
    (v : String) (pay : NotificationPayload)
    (notif : Notification) (now : Nat) (db : Db) (c : NotificationChannel)
    (gp2 : NotificationChannelType → Option ChannelProvider)
    (senderId : Nat) (dto : CreateNotificationDto) (now2 : Nat) (db2 : Db)
    (hk : registerProviders emailP fcmP k = none) (hc : c.type = k)
    (hrec : (userFindUnique db2 dto.recipientId).isSome = true) :
    (sendNotification (registerProviders emailP fcmP) k v pay
      = { success := false, status := .FAILED,
          errorMessage := some ("No provider available for channel type: "
            ++ channelTypeToString k) }) ∧
    ((sendToChannels (registerProviders emailP fcmP) notif pay [c] now db).2.map
        (fun r => (r.status, r.errorMessage))
      = [(NotificationDeliveryStatus.FAILED,
          some ("No provider available for channel type: "
            ++ channelTypeToString k))]) ∧
    ((sendToChannels (registerProviders emailP fcmP) notif pay [c] now
        db).1.deliveries.map (fun d => d.status)
      = db.deliveries.map (fun d => d.status)
        ++ [NotificationDeliveryStatus.FAILED]) ∧
    ((createNotification gp2 senderId dto now2 db2).2.isOk = true) := by
  subst hc
  refine ⟨?_, ?_, ?_, createNotification_isOk gp2 senderId dto now2 db2 hrec⟩
  · simp [sendNotification, hk]
  · simp [sendToChannels, sendNotification, hk]
  · simp [sendToChannels, sendNotification, mkDeliveryRecord, hk]

def wProviderThrow : ChannelProvider :=
  { send := fun _ _ => .error "boom", validateChannelValue := fun _ => false }

def wChanSms : NotificationChannel :=
  { id := 10, userId := 1, type := .SMS, value := "+111", isActive := true,
    isVerified := false, metadata := [] }

theorem c7_witness :
    (registerProviders wProviderThrow wProviderThrow .SMS = none) ∧
    (wChanSms.type = .SMS) ∧
    ((userFindUnique wDbC6 wDtoC6.recipientId).isSome = true) ∧
    ((sendNotification (registerProviders wProviderThrow wProviderThrow) .SMS
        "+111" wPayload
      = { success := false, status := .FAILED,
          errorMessage := some ("No provider available for channel type: "
            ++ channelTypeToString .SMS) }) ∧
    ((sendToChannels (registerProviders wProviderThrow wProviderThrow) wNotif
        wPayload [wChanSms] 0 wDbC6).2.map (fun r => (r.status, r.errorMessage))
      = [(NotificationDeliveryStatus.FAILED,
          some ("No provider available for channel type: "
            ++ channelTypeToString .SMS))]) ∧
    ((sendToChannels (registerProviders wProviderThrow wProviderThrow) wNotif
        wPayload [wChanSms] 0 wDbC6).1.deliveries.map (fun d => d.status)
      = wDbC6.deliveries.map (fun d => d.status)
        ++ [NotificationDeliveryStatus.FAILED]) ∧
    ((createNotification noProviders 2 wDtoC6 0 wDbC6).2.isOk = true)) :=
  ⟨rfl, rfl, by decide,
    c7_missing_handler_failed_record wProviderThrow wProviderThrow .SMS "+111"
      wPayload wNotif 0 wDbC6 wChanSms noProviders 2 wDtoC6 0 wDbC6
      rfl rfl (by decide)⟩

/-- C8: a handler fault raised during a per-target send is caught in the
provider factory and converted into a FAILED delivery result recorded for
that target, and every sibling target in the round is still attempted (one
row and one record per target). -/
theorem c8_handler_fault_does_not_abort_round
    (gp : NotificationChannelType → Option ChannelProvider)
    (p : ChannelProvider) (pay : NotificationPayload) (msg : String)
    (c : NotificationChannel) (rest : List NotificationChannel)
    (notif : Notification) (now : Nat) (db : Db)
    (hreg : gp c.type = some p)
    (hfault : p.send c.value pay = .error msg) :
    (sendNotification gp c.type c.value pay
      = { success := false, status := .FAILED, errorMessage := some msg }) ∧
    (((sendToChannels gp notif pay (c :: rest) now db).2.map
        (fun r => (r.success, r.status, r.errorMessage))).head?
      = some (false, NotificationDeliveryStatus.FAILED, some msg)) ∧
    ((sendToChannels gp notif pay (c :: rest) now db).2.length
      = (c :: rest).length) ∧
    ((sendToChannels gp notif pay (c :: rest) now db).1.deliveries.length
      = db.deliveries.length + (c :: rest).length) := by
  refine ⟨?_, ?_, sendToChannels_length _ _ _ _ _ _,
    sendToChannels_deliveries_length _ _ _ _ _ _⟩
  · simp [sendNotification, hreg, hfault]
  · simp [sendToChannels, sendNotification, hreg, hfault]

def wGpThrow : NotificationChannelType → Option ChannelProvider :=
  fun _ => some wProviderThrow

def wChanEmail : NotificationChannel :=
  { id := 10, userId := 1, type := .EMAIL, value := "a@b.co",
    isActive := true, isVerified := true, metadata := [] }

theorem c8_witness :
    (wGpThrow wChanSms.type = some wProviderThrow) ∧
    (wProviderThrow.send wChanSms.value wPayload = Except.error "boom") ∧
    ((sendNotification wGpThrow wChanSms.type wChanSms.value wPayload
      = { success := false, status := .FAILED, errorMessage := some "boom" }) ∧
    (((sendToChannels wGpThrow wNotif wPayload [wChanSms, wChanEmail] 0
        wDbC1).2.map (fun r => (r.success, r.status, r.errorMessage))).head?
      = some (false, NotificationDeliveryStatus.FAILED, some "boom")) ∧
    ((sendToChannels wGpThrow wNotif wPayload [wChanSms, wChanEmail] 0
        wDbC1).2.length = ([wChanSms, wChanEmail] : List NotificationChannel).length) ∧
    ((sendToChannels wGpThrow wNotif wPayload [wChanSms, wChanEmail] 0
        wDbC1).1.deliveries.length
      = wDbC1.deliveries.length
        + ([wChanSms, wChanEmail] : List NotificationChannel).length)) :=
  ⟨rfl, rfl,
    c8_handler_fault_does_not_abort_round wGpThrow wProviderThrow wPayload
      "boom" wChanSms [wChanEmail] wNotif 0 wDbC1 rfl rfl⟩

/-- C2: creating a second channel with an identical (owner, kind, address)
triple fails (state unchanged, no ok result), and channel creation preserves
the triple-uniqueness invariant — no duplicate row is ever produced. -/
theorem c2_channel_triple_uniqueness
    (gp : NotificationChannelType → Option ChannelProvider)
    (userId : Nat) (dto : CreateNotificationChannelDto) (db : Db) :
    (db.channels.any (fun c =>
        c.userId == userId && c.type == dto.type && c.value == dto.value) = true →
      (createNotificationChannel gp userId dto db).1 = db ∧
      (createNotificationChannel gp userId dto db).2.isOk = false) ∧
    (uniqueTriples db →
      uniqueTriples (createNotificationChannel gp userId dto db).1) := by
  constructor
  · intro hdup
    unfold createNotificationChannel
    cases hv : factoryValidateChannelValue gp dto.type dto.value
    · exact ⟨rfl, rfl⟩
    · simp only [Bool.not_true, Bool.false_eq_true, if_false]
      unfold notificationChannelCreate
      rw [hdup]
      exact ⟨rfl, rfl⟩
  · intro huniq
    unfold createNotificationChannel
    cases hv : factoryValidateChannelValue gp dto.type dto.value
    · exact huniq
    · simp only [Bool.not_true, Bool.false_eq_true, if_false]
      unfold notificationChannelCreate
      cases hdup : db.channels.any (fun c =>
          c.userId == userId && c.type == dto.type && c.value == dto.value)
      · simp only [Bool.false_eq_true, if_false]
        unfold uniqueTriples at huniq ⊢
        simp only [List.map_append, List.map_cons, List.map_nil]
        rw [List.nodup_append]
        refine ⟨huniq, List.nodup_singleton _, ?_⟩
        intro t ht hts
        simp only [List.mem_singleton] at hts
        obtain ⟨ch, hmem, hch⟩ := List.mem_map.mp ht
        rw [hts] at hch
        have hprop : (ch.userId == userId && ch.type == dto.type
            && ch.value == dto.value) = true := by
          unfold tripleOf at hch
          have h1 : ch.userId = userId := congrArg Prod.fst hch
          have h2 : ch.type = dto.type :=
            congrArg Prod.fst (congrArg Prod.snd hch)
          have h3 : ch.value = dto.value :=
            congrArg Prod.snd (congrArg Prod.snd hch)
          simp [h1, h2, h3]
        have := List.any_eq_false.mp hdup ch hmem
        exact this hprop
      · exact huniq

def wDbC2 : Db :=
  { users := [], channels := [wChanEmail], notifications := [],
    deliveries := [], nextId := 30 }

def wDtoC2 : CreateNotificationChannelDto :=
  { type := .EMAIL, value := "a@b.co", isActive := some true,
    metadata := none }

theorem c2_witness :
    (wDbC2.channels.any (fun c =>
        c.userId == 1 && c.type == wDtoC2.type && c.value == wDtoC2.value)
      = true) ∧
    (uniqueTriples wDbC2) ∧
    (((createNotificationChannel noProviders 1 wDtoC2 wDbC2).1 = wDbC2 ∧
      (createNotificationChannel noProviders 1 wDtoC2 wDbC2).2.isOk = false) ∧
     uniqueTriples (createNotificationChannel noProviders 1 wDtoC2 wDbC2).1) :=
  ⟨by decide, by decide,
    (c2_channel_triple_uniqueness noProviders 1 wDtoC2 wDbC2).1 (by decide),
    (c2_channel_triple_uniqueness noProviders 1 wDtoC2 wDbC2).2 (by decide)⟩

/-- C10: for every kind other than EMAIL and FCM, the provider map has no
entry, `validateChannelValue` is therefore false for every address value,
and `createNotificationChannel` always fails with the invalid-value error,
leaving the state unchanged. -/
theorem c10_unregistered_kinds_rejected
    (emailP fcmP : ChannelProvider) (k : NotificationChannelType)
    (userId : Nat) (dto : CreateNotificationChannelDto) (db : Db)
    (hk : (k == NotificationChannelType.EMAIL
        || k == NotificationChannelType.FCM) = false)
    (hdto : dto.type = k) :
    (registerProviders emailP fcmP k = none) ∧
    (factoryValidateChannelValue (registerProviders emailP fcmP) k dto.value
      = false) ∧
    (createNotificationChannel (registerProviders emailP fcmP) userId dto db
      = (db, .error (.invalidValue
          ("Invalid " ++ channelTypeToString k ++ " value format")))) := by
  subst hdto
  have hnone : registerProviders emailP fcmP dto.type = none := by
    cases htype : dto.type <;> simp_all [registerProviders]
  have hval : factoryValidateChannelValue (registerProviders emailP fcmP)
      dto.type dto.value = false := by
    unfold factoryValidateChannelValue
    rw [hnone]
  refine ⟨hnone, hval, ?_⟩
  unfold createNotificationChannel
  rw [hval]
  exact rfl

def wDtoC10 : CreateNotificationChannelDto :=
  { type := .WEBHOOK, value := "https://webhook.site/test",
    isActive := none, metadata := none }

theorem c10_witness :
    ((NotificationChannelType.WEBHOOK == NotificationChannelType.EMAIL
        || NotificationChannelType.WEBHOOK == NotificationChannelType.FCM)
      = false) ∧
    (wDtoC10.type = .WEBHOOK) ∧
    ((registerProviders wProviderThrow wProviderThrow .WEBHOOK = none) ∧
     (factoryValidateChannelValue (registerProviders wProviderThrow wProviderThrow)
        .WEBHOOK wDtoC10.value = false) ∧
     (createNotificationChannel (registerProviders wProviderThrow wProviderThrow)
        7 wDtoC10 wDbC2
      = (wDbC2, .error (.invalidValue
          ("Invalid " ++ channelTypeToString .WEBHOOK ++ " value format"))))) :=
  ⟨by decide, rfl,
    c10_unregistered_kinds_rejected wProviderThrow wProviderThrow .WEBHOOK
      7 wDtoC10 wDbC2 (by decide) rfl⟩

/-- SendGrid sub-sends either succeed or carry an error message. -/
theorem sendViaSendGrid_spec (env : EmailEnv) (v : String)
    (p : NotificationPayload) :
    (sendViaSendGrid env v p).success = true ∨
    (sendViaSendGrid env v p).errorMessage.isSome = true := by
  unfold sendViaSendGrid
  split
  · right; rfl
  · split
    · right; rfl
    · split
      · right; rfl
      · left; rfl

/-- AWS SES sub-sends either succeed or carry an error message. -/
theorem sendViaAwsSes_spec (env : EmailEnv) (v : String)
    (p : NotificationPayload) :
    (sendViaAwsSes env v p).success = true ∨
    (sendViaAwsSes env v p).errorMessage.isSome = true := by
  unfold sendViaAwsSes
  split
  · right; rfl
  · left; rfl

/-- SMTP sub-sends either succeed or carry an error message. -/
theorem sendViaNodemailer_spec (env : EmailEnv) (v : String)
    (p : NotificationPayload) :
    (sendViaNodemailer env v p).success = true ∨
    (sendViaNodemailer env v p).errorMessage.isSome = true := by
  unfold sendViaNodemailer
  split
  · right; rfl
  · left; rfl

/-- Every branch of the provider switch either succeeds or carries an error
message. -/
theorem emailProviderSwitch_spec (env : EmailEnv) (v : String)
    (p : NotificationPayload) :
    (emailProviderSwitch env v p).success = true ∨
    (emailProviderSwitch env v p).errorMessage.isSome = true := by
  unfold emailProviderSwitch
  split
  · left; rfl
  · split
    · exact sendViaSendGrid_spec env v p
    · split
      · exact sendViaAwsSes_spec env v p
      · split
        · exact sendViaNodemailer_spec env v p
        · left; rfl

/-- `EmailProvider.send` outcomes: success is DELIVERED with no error
message; failure is FAILED with an error message present. -/
theorem emailSend_spec (env : EmailEnv) (v : String) (p : NotificationPayload) :
    ((emailSend env v p).success = true →
      (emailSend env v p).status = NotificationDeliveryStatus.DELIVERED ∧
      (emailSend env v p).errorMessage = none) ∧
    ((emailSend env v p).success = false →
      (emailSend env v p).status = NotificationDeliveryStatus.FAILED ∧
      (emailSend env v p).errorMessage.isSome = true) := by
  unfold emailSend
  split
  · exact ⟨fun h => Bool.noConfusion h, fun _ => ⟨rfl, rfl⟩⟩
  · split
    · exact ⟨fun _ => ⟨rfl, rfl⟩, fun h => Bool.noConfusion h⟩
    · next hsub =>
      refine ⟨fun h => Bool.noConfusion h, fun _ => ⟨rfl, ?_⟩⟩
      rcases emailProviderSwitch_spec env v p with hok | hmsg
      · exact absurd hok hsub
      · exact hmsg

/-- `FcmProvider.send` outcomes: success is DELIVERED with no error message;
failure is FAILED with an error message present. -/
theorem fcmSend_spec (env : FcmEnv) (v : String) (p : NotificationPayload) :
    ((fcmSend env v p).success = true →
      (fcmSend env v p).status = NotificationDeliveryStatus.DELIVERED ∧
      (fcmSend env v p).errorMessage = none) ∧
    ((fcmSend env v p).success = false →
      (fcmSend env v p).status = NotificationDeliveryStatus.FAILED ∧
      (fcmSend env v p).errorMessage.isSome = true) := by
  unfold fcmSend
  split
  · exact ⟨fun h => Bool.noConfusion h, fun _ => ⟨rfl, rfl⟩⟩
  · split
    · exact ⟨fun h => Bool.noConfusion h, fun _ => ⟨rfl, rfl⟩⟩
    · split
      · exact ⟨fun h => Bool.noConfusion h, fun _ => ⟨rfl, rfl⟩⟩
      · split
        · exact ⟨fun _ => ⟨rfl, rfl⟩, fun h => Bool.noConfusion h⟩
        · exact ⟨fun h => Bool.noConfusion h, fun _ => ⟨rfl, rfl⟩⟩

/-- Provider-factory outcomes over the registered providers: success is
DELIVERED with no error message; failure is FAILED with an error message
present. -/
theorem registered_sendNotification_spec (ee : EmailEnv) (fe : FcmEnv)
    (k : NotificationChannelType) (v : String) (p : NotificationPayload) :
    ((sendNotification (registerProviders (emailChannelProvider ee)
        (fcmChannelProvider fe)) k v p).success = true →
      (sendNotification (registerProviders (emailChannelProvider ee)
        (fcmChannelProvider fe)) k v p).status
          = NotificationDeliveryStatus.DELIVERED ∧
      (sendNotification (registerProviders (emailChannelProvider ee)
        (fcmChannelProvider fe)) k v p).errorMessage = none) ∧
    ((sendNotification (registerProviders (emailChannelProvider ee)
        (fcmChannelProvider fe)) k v p).success = false →
      (sendNotification (registerProviders (emailChannelProvider ee)
        (fcmChannelProvider fe)) k v p).status
          = NotificationDeliveryStatus.FAILED ∧
      (sendNotification (registerProviders (emailChannelProvider ee)
        (fcmChannelProvider fe)) k v p).errorMessage.isSome = true) := by
  cases k
  case EMAIL => exact emailSend_spec ee v p
  case FCM => exact fcmSend_spec fe v p
  all_goals exact ⟨fun h => Bool.noConfusion h, fun _ => ⟨rfl, rfl⟩⟩

/-- The shape every delivery record written in a dispatch round over the
registered providers satisfies (the amended C4 property): FAILED records
carry an error message, a failedAt timestamp, no sentAt and no deliveredAt;
all other records are DELIVERED with sentAt and deliveredAt set and no error
message. -/
def deliveryRecordSpec (now : Nat) (d : NotificationDelivery) : Bool :=
  if d.status == NotificationDeliveryStatus.FAILED then
    d.errorMessage.isSome && d.failedAt == some now && d.sentAt == none &&
      d.deliveredAt == none
  else
    (d.status == NotificationDeliveryStatus.DELIVERED) &&
      d.errorMessage == none && d.sentAt == some now &&
      d.failedAt == none && d.deliveredAt == some now

/-- A record built from a provider-factory result that satisfies the
success/failure shape is well-formed. -/
theorem mkDeliveryRecord_wf (r : DeliveryResult) (notif : Notification)
    (c : NotificationChannel) (now recId : Nat)
    (h1 : r.success = true →
      r.status = NotificationDeliveryStatus.DELIVERED ∧ r.errorMessage = none)
    (h2 : r.success = false →
      r.status = NotificationDeliveryStatus.FAILED ∧
      r.errorMessage.isSome = true) :
    deliveryRecordSpec now (mkDeliveryRecord r notif c now recId) = true := by
  rcases hs : r.success with _ | _
  · obtain ⟨hst, hem⟩ := h2 hs
    simp [deliveryRecordSpec, mkDeliveryRecord, hst, hem, hs]
  · obtain ⟨hst, hem⟩ := h1 hs
    simp [deliveryRecordSpec, mkDeliveryRecord, hst, hem, hs]

/-- Dispatch over the registered providers appends exactly one well-formed
record per targeted channel. -/
theorem sendToChannels_records (ee : EmailEnv) (fe : FcmEnv)
    (notif : Notification) (pay : NotificationPayload)
    (chs : List NotificationChannel) (now : Nat) (db : Db) :
    ∃ news : List NotificationDelivery,
      (sendToChannels (registerProviders (emailChannelProvider ee)
          (fcmChannelProvider fe)) notif pay chs now db).1.deliveries
        = db.deliveries ++ news ∧
      news.length = chs.length ∧
      news.all (deliveryRecordSpec now) = true := by
  induction chs generalizing db with
  | nil => exact ⟨[], by simp [sendToChannels], rfl, rfl⟩
  | cons c rest ih =>
    obtain ⟨news, h1, h2, h3⟩ := ih
      { db with deliveries := db.deliveries ++ [mkDeliveryRecord (sendNotification (registerProviders (emailChannelProvider ee) (fcmChannelProvider fe)) c.type c.value pay) notif c now db.nextId], nextId := db.nextId + 1 }
    refine ⟨mkDeliveryRecord (sendNotification (registerProviders
      (emailChannelProvider ee) (fcmChannelProvider fe)) c.type c.value pay)
      notif c now db.nextId :: news, ?_, ?_, ?_⟩
    · simp only [sendToChannels]
      rw [h1]
      simp
    · simp [h2]
    · simp only [List.all_cons, Bool.and_eq_true]
      exact ⟨mkDeliveryRecord_wf _ notif c now db.nextId
        (registered_sendNotification_spec ee fe c.type c.value pay).1
        (registered_sendNotification_spec ee fe c.type c.value pay).2, h3⟩

def wEmailEnv : EmailEnv :=
  { provider := "console", now := 3, sendgridApiKey := none,
    sendgridFetch := fun _ _ => .error "network unavailable",
    awsAccessKeyId := none, awsSecretAccessKey := none, awsRegion := none,
    smtpHost := none, smtpPort := none }

def wFcmEnv : FcmEnv :=
  { serverKey := "", now := 3,
    fetchSend := fun _ _ => .error "network unavailable" }

/-- C4 counterexample: the claim says a successful outcome produces a record
with status `sent`, but a successful email send produces a record whose
status is the provider-reported DELIVERED, not SENT. -/
theorem c4_record_status_counterexample :
    ((sendToChannels (registerProviders (emailChannelProvider wEmailEnv)
        (fcmChannelProvider wFcmEnv)) wNotif wPayload [wChanEmail] 3
        wDbC5).2.map (fun r => (r.success, r.status))
      = [(true, NotificationDeliveryStatus.DELIVERED)]) ∧
    ((sendToChannels (registerProviders (emailChannelProvider wEmailEnv)
        (fcmChannelProvider wFcmEnv)) wNotif wPayload [wChanEmail] 3
        wDbC5).1.deliveries.map (fun d => (d.status, d.sentAt))
      = [(NotificationDeliveryStatus.DELIVERED, some 3)]) ∧
    (NotificationDeliveryStatus.DELIVERED ≠ NotificationDeliveryStatus.SENT) := by
  refine ⟨by decide, by decide, by decide⟩

/-- C4 amended: in each dispatch round over the registered providers,
exactly one delivery record is created per per-channel outcome; a success
yields a record with the provider-reported DELIVERED status (not `sent`),
a sentAt (and deliveredAt) timestamp and no error message; a failure yields
status FAILED with a failedAt timestamp and an error message present; the
error message is present iff the record status is FAILED (no RETRY record is
ever produced in a round). -/
theorem c4_amended_delivery_records (ee : EmailEnv) (fe : FcmEnv)
    (notif : Notification) (pay : NotificationPayload)
    (chs : List NotificationChannel) (now : Nat) (db : Db) :
    ((sendToChannels (registerProviders (emailChannelProvider ee)
        (fcmChannelProvider fe)) notif pay chs now db).2.length
      = chs.length) ∧
    ((sendToChannels (registerProviders (emailChannelProvider ee)
        (fcmChannelProvider fe)) notif pay chs now db).1.deliveries.length
      = db.deliveries.length + chs.length) ∧
    (((sendToChannels (registerProviders (emailChannelProvider ee)
        (fcmChannelProvider fe)) notif pay chs now db).1.deliveries.drop
          db.deliveries.length).all (deliveryRecordSpec now) = true) := by
  obtain ⟨news, h1, h2, h3⟩ := sendToChannels_records ee fe notif pay chs now db
  refine ⟨sendToChannels_length _ _ _ _ _ _, ?_, ?_⟩
  · rw [h1]
    simp [h2]
  · rw [h1, List.drop_left]
    exact h3

end NotificationApi
